import Mathlib

/-!
Shallow embedding of the DAO governance-portal repository:
the proposal form component (ProposalForm), the mock submission module
(src/utils/proposals.ts) and the wallet/contract integration module
(src/utils/web3.ts).

External effects (wallet provider calls, contract calls, the simulated
delay, the random identifier suffix) are passed in explicitly as
environment values; a JavaScript exception thrown by an external call is
an `Except.error` carrying `Option String`: `some m` when the thrown value
is an `Error` with message `m` (so `error instanceof Error` holds), `none`
when it is not an `Error`.
-/

/-- A JavaScript exception value as the catch blocks here see it:
`some m` if it is an `Error` with message `m`, `none` otherwise. -/
abbrev JSErr : Type := Option String

/-- Evaluation of `error instanceof Error ? error.message : dflt`. -/
def errMessageOr (e : JSErr) (dflt : String) : String :=
  match e with
  | some m => m
  | none => dflt

/-- A JavaScript number as it occurs in this code: an integer value, or
`none` for `NaN` (which `parseInt` can produce). -/
abbrev JSNum : Type := Option Int

/-- Template-literal rendering of a JavaScript number (`NaN` prints as
the string `NaN`). -/
def numToStr (n : JSNum) : String :=
  match n with
  | some v => toString v
  | none => "NaN"

/-- The numeric value of a run of decimal digits. -/
def digitsToNat (ds : List Char) : Nat :=
  ds.foldl (fun acc c => acc * 10 + (c.toNat - 48)) 0

/-- JavaScript `parseInt(value)` (radix 10, as fed by the number input):
skip leading whitespace, read an optional sign and then the longest
leading run of decimal digits; `NaN` when that run is empty. -/
def parseIntJS (s : String) : JSNum :=
  let t := s.toList.dropWhile (fun c => c = ' ' ∨ c = '\t' ∨ c = '\n' ∨ c = '\r')
  let signAndRest : Bool × List Char :=
    match t with
    | '-' :: rest => (true, rest)
    | '+' :: rest => (false, rest)
    | rest => (false, rest)
  let digits := signAndRest.2.takeWhile Char.isDigit
  if digits.isEmpty then none
  else
    let v : Int := Int.ofNat (digitsToNat digits)
    some (if signAndRest.1 then -v else v)

/-- JavaScript truthiness of a string used with `||`:
`s || dflt` yields `dflt` when `s` is the empty string. -/
def strOr (s : String) (dflt : String) : String :=
  if s = "" then dflt else s

/-- Evaluation of `opt || dflt` where `opt` is a possibly-absent string field:
absent and empty strings are falsy. -/
def optStrOr (s : Option String) (dflt : String) : String :=
  match s with
  | some t => strOr t dflt
  | none => dflt

/-- Evaluation of `s.slice(a, b)` on a JavaScript string (non-negative indices). -/
def strSlice (s : String) (a b : Nat) : String :=
  String.mk ((s.toList.drop a).take (b - a))

/-- ProposalData (ProposalForm / proposals.ts): the form field state.
`proposalType` is a string whose UI-reachable values are
`general`, `treasury`, `parameter`. -/
structure ProposalData where
  title : String
  description : String
  votingPeriod : JSNum
  proposalType : String
deriving DecidableEq

/-- The initial form state of ProposalForm (`useState` initialiser), also
what the form is reset to after a successful submission. -/
def initialFormData : ProposalData :=
  { title := "", description := "", votingPeriod := some 7, proposalType := "general" }

/-- Model of `handleChange`: update field `name` of the previous form data with the
input `value`; `votingPeriod` goes through `parseInt`, every other known
field stores the raw string. An unknown `name` adds a stray property that
touches none of the four fields. -/
def handleChange (name value : String) (prev : ProposalData) : ProposalData :=
  if name = "votingPeriod" then { prev with votingPeriod := parseIntJS value }
  else if name = "title" then { prev with title := value }
  else if name = "description" then { prev with description := value }
  else if name = "proposalType" then { prev with proposalType := value }
  else prev

/-- SubmissionResult (proposals.ts): success flag, message, optional
proposal identifier. -/
structure SubmissionResult where
  success : Bool
  message : String
  proposalId : Option String
deriving DecidableEq

/-- The fixed simulated delay of the mock submission path
(`setTimeout(resolve, 1500)`), in milliseconds. -/
def mockSubmitDelayMs : Nat := 1500

/-- Model of `submitProposal` (proposals.ts): awaits the fixed delay, then returns
a success result with identifier `prop_` followed by the random suffix
(`Math.random().toString(36).substring(2, 10)`, supplied here as
`suffix`). The catch branch is reachable only if the awaited step threw,
which the delay promise never does; `delayOutcome` makes that branch
explicit. -/
def submitProposal (_data : ProposalData) (delayOutcome : Except JSErr Unit)
    (suffix : String) : SubmissionResult :=
  match delayOutcome with
  | .error e =>
      { success := false,
        message := errMessageOr e "Failed to submit proposal",
        proposalId := none }
  | .ok _ =>
      { success := true,
        message := "Proposal submitted successfully",
        proposalId := some ("prop_" ++ suffix) }

/-! ## web3.ts: contract addresses, network config, wallet integration -/

/-- Governor contract address (web3.ts). -/
def GOVERNOR_CONTRACT_ADDRESS : String := "0xceb8CB84415bb7712f1B34f628f00d805cd6740B"

/-- Governance token contract address (web3.ts). -/
def GOVERNANCE_TOKEN_ADDRESS : String := "0xc95B4096Be9C48A1C63c9CCa171CfC16069779D0"

/-- Timelock contract address (web3.ts), the default propose target. -/
def TIMELOCK_CONTRACT_ADDRESS : String := "0xF269cFe75b406B074a93cDEa74B7338D6257F9C9"

/-- NETWORK.chainId (web3.ts): Sepolia. -/
def NETWORK_chainId : Nat := 11155111

/-- NETWORK.name (web3.ts). -/
def NETWORK_name : String := "Sepolia Testnet"

/-- Evaluation of `n.toString(16)` on a non-negative JavaScript number. -/
def natToHex (n : Nat) : String :=
  String.mk (Nat.toDigits 16 n)

/-- Equality on `Except` outcomes is decidable (used to evaluate the
models on concrete environments). -/
instance {ε α : Type} [DecidableEq ε] [DecidableEq α] : DecidableEq (Except ε α) :=
  fun a b =>
    match a, b with
    | .ok x, .ok y =>
        if h : x = y then .isTrue (by rw [h])
        else .isFalse (by intro hc; cases hc; exact h rfl)
    | .error x, .error y =>
        if h : x = y then .isTrue (by rw [h])
        else .isFalse (by intro hc; cases hc; exact h rfl)
    | .ok _, .error _ => .isFalse (by intro hc; cases hc)
    | .error _, .ok _ => .isFalse (by intro hc; cases hc)

/-- The exception a failed `wallet_switchEthereumChain` request throws, as
`connectWallet` inspects it: its `code` property (a number, or absent) and
its rendering as an `Error` (`some m` when `instanceof Error` with message
`m`). -/
structure SwitchErr where
  code : Option Int
  asError : JSErr
deriving DecidableEq

/-- Everything external that one `connectWallet` run observes: whether
`window.ethereum` exists, and the outcome of each awaited provider call.
An `Except.error` models that call throwing. -/
structure WalletEnv where
  hasEthereum : Bool
  accountsOutcome : Except JSErr Unit
  networkOutcome : Except JSErr Nat
  switchOutcome : Except SwitchErr Unit
  signerOutcome : Except JSErr String
deriving DecidableEq

/-- The value `connectWallet` returns. The signer handle is opaque; its
presence coincides with `success` in the source, which returns
`{ success: true, address, signer }` or `{ success: false, error }`. -/
structure ConnectResult where
  success : Bool
  address : Option String
  error : Option String
deriving DecidableEq

/-- A request `connectWallet` sends to the wallet provider. -/
inductive WalletRequest where
  | requestAccounts
  | switchChain (chainIdHex : String)
deriving DecidableEq

/-- The failure value built by `connectWallet`'s catch block. -/
def connectCatch (e : JSErr) : ConnectResult :=
  { success := false, address := none,
    error := some (errMessageOr e "Failed to connect wallet") }

/-- Model of `connectWallet` (web3.ts): request account access, check the current
chain id against `NETWORK.chainId`, on mismatch request a switch (a switch
failure with code 4902 becomes "Please add the ... network to your
wallet"), then obtain the signer address. Returns the result together
with the list of wallet-provider requests issued. -/
def connectWallet (env : WalletEnv) : ConnectResult × List WalletRequest :=
  if env.hasEthereum then
    match env.accountsOutcome with
    | .error e => (connectCatch e, [.requestAccounts])
    | .ok _ =>
      match env.networkOutcome with
      | .error e => (connectCatch e, [.requestAccounts])
      | .ok chainId =>
        let afterSwitch : List WalletRequest → ConnectResult × List WalletRequest :=
          fun reqs =>
            match env.signerOutcome with
            | .error e => (connectCatch e, reqs)
            | .ok address =>
                ({ success := true, address := some address, error := none }, reqs)
        if chainId ≠ NETWORK_chainId then
          let reqs := [WalletRequest.requestAccounts,
                       WalletRequest.switchChain ("0x" ++ natToHex NETWORK_chainId)]
          match env.switchOutcome with
          | .error se =>
              if se.code = some 4902 then
                (connectCatch
                  (some ("Please add the " ++ NETWORK_name ++ " network to your wallet")),
                 reqs)
              else (connectCatch se.asError, reqs)
          | .ok _ => afterSwitch reqs
        else afterSwitch [.requestAccounts]
  else
    ({ success := false, address := none, error := some "MetaMask not installed" }, [])

/-- The proposalData parameter of `submitGovernanceProposal`: the form
fields plus optional explicit targets, values and calldatas. -/
structure GovProposalInput where
  title : String
  description : String
  votingPeriod : JSNum
  proposalType : String
  targets : Option (List String)
  values : Option (List String)
  calldatas : Option (List String)
deriving DecidableEq

/-- The form data as `handleSubmit` passes it to
`submitGovernanceProposal` (no targets, values or calldatas). -/
def toGovInput (d : ProposalData) : GovProposalInput :=
  { title := d.title, description := d.description,
    votingPeriod := d.votingPeriod, proposalType := d.proposalType,
    targets := none, values := none, calldatas := none }

/-- Model of `ethers.parseEther` as used here on whole-ether decimal strings: a
nonempty digit string becomes that many ethers in wei (times 10^18);
anything else throws. -/
def parseEther (s : String) : Except JSErr Nat :=
  if s ≠ "" ∧ s.toList.all Char.isDigit then
    .ok (digitsToNat s.toList * 10 ^ 18)
  else .error (some ("invalid decimal value argument " ++ s))

/-- Model of `values.map(value => ethers.parseEther(value))`: parse every entry,
propagating the first thrown exception (a thrown error aborts the map). -/
def parseEtherList : List String → Except JSErr (List Nat)
  | [] => .ok []
  | s :: rest =>
    match parseEther s with
    | .error e => .error e
    | .ok v =>
      match parseEtherList rest with
      | .error e => .error e
      | .ok vs => .ok (v :: vs)

/-- One `propose` contract call as issued by `submitGovernanceProposal`:
the contract address it is sent to and the four arguments. -/
structure ProposeCall where
  contractAddress : String
  targets : List String
  values : List Nat
  calldatas : List String
  description : String
deriving DecidableEq

/-- The value `submitGovernanceProposal` returns. -/
structure GovResult where
  success : Bool
  proposalId : Option String
  transactionHash : Option String
  error : Option String
deriving DecidableEq

/-- External outcomes one `submitGovernanceProposal` run observes: the
awaited `propose` transaction (yielding `tx.hash`) and the awaited
`tx.wait()` receipt (yielding `receipt.hash`). -/
structure GovEnv where
  proposeOutcome : Except JSErr String
  waitOutcome : Except JSErr String
deriving DecidableEq

/-- The failure value built by `submitGovernanceProposal`'s catch block. -/
def govCatch (e : JSErr) : GovResult :=
  { success := false, proposalId := none, transactionHash := none,
    error := some (errMessageOr e "Failed to submit proposal") }

/-- Model of `submitGovernanceProposal` (web3.ts): format the proposal description
from title, description, proposalType and votingPeriod; default targets to
the timelock address, values to one `'0'` entry (parsed to wei) and
calldatas to one `'0x'` entry; call `propose` on the Governor contract and
wait for the receipt. Returns the result together with the `propose`
calls issued. -/
def submitGovernanceProposal (input : GovProposalInput) (env : GovEnv) :
    GovResult × List ProposeCall :=
  let description :=
    "# " ++ input.title ++ "\n\n" ++ input.description ++
    "\n\nType: " ++ input.proposalType ++
    "\nVoting Period: " ++ numToStr input.votingPeriod ++ " days"
  let targets := input.targets.getD [TIMELOCK_CONTRACT_ADDRESS]
  let values := input.values.getD ["0"]
  let calldatas := input.calldatas.getD ["0x"]
  match parseEtherList values with
  | .error e => (govCatch e, [])
  | .ok valueBigInts =>
    let call : ProposeCall :=
      { contractAddress := GOVERNOR_CONTRACT_ADDRESS, targets := targets,
        values := valueBigInts, calldatas := calldatas, description := description }
    match env.proposeOutcome with
    | .error e => (govCatch e, [call])
    | .ok _txHash =>
      match env.waitOutcome with
      | .error e => (govCatch e, [call])
      | .ok receiptHash =>
          ({ success := true, proposalId := some receiptHash,
             transactionHash := some receiptHash, error := none }, [call])

/-- Model of `ethers.formatEther`: render a wei amount as a decimal ether string
(integer part, a dot, then the 18 fractional digits with trailing zeros
removed but at least one digit kept). -/
def formatEther (wei : Nat) : String :=
  let whole := wei / 10 ^ 18
  let frac := wei % 10 ^ 18
  let fracDigits := toString frac
  let padded := String.mk (List.replicate (18 - fracDigits.length) '0') ++ fracDigits
  let kept := String.mk (padded.toList.reverse.dropWhile (fun c => c = '0')).reverse
  toString whole ++ "." ++ (if kept = "" then "0" else kept)

/-- The value `getVotingPower` returns. -/
structure PowerResult where
  success : Bool
  balance : Option String
  error : Option String
deriving DecidableEq

/-- External outcomes one `getVotingPower` run observes: whether
`window.ethereum` exists and the awaited `balanceOf` call (a wei
balance). -/
structure PowerEnv where
  hasEthereum : Bool
  balanceOutcome : Except JSErr Nat
deriving DecidableEq

/-- Model of `getVotingPower` (web3.ts): early-return when no provider, otherwise
query `balanceOf(address)` on the governance token contract and format
the balance. -/
def getVotingPower (env : PowerEnv) : PowerResult :=
  if env.hasEthereum then
    match env.balanceOutcome with
    | .error e =>
        { success := false, balance := none,
          error := some (errMessageOr e "Failed to get voting power") }
    | .ok balance =>
        { success := true, balance := some (formatEther balance), error := none }
  else { success := false, balance := none, error := some "MetaMask not installed" }

/-- An error is raised inside a `connectWallet` run: the provider is
absent, or an awaited step of the executed path throws. The switch
request only runs — and so can only throw — when the reported chain id
mismatches `NETWORK.chainId`; each of the other steps, when it throws, is
either reached (and aborts the run) or preceded by an earlier raised
error, so it needs no reachability guard. -/
def connectWalletRaises (env : WalletEnv) : Prop :=
  env.hasEthereum = false ∨
  (∃ e, env.accountsOutcome = .error e) ∨
  (∃ e, env.networkOutcome = .error e) ∨
  (∃ cid, env.networkOutcome = .ok cid ∧ cid ≠ NETWORK_chainId ∧
    ∃ se, env.switchOutcome = .error se) ∨
  (∃ e, env.signerOutcome = .error e)

/-- An error is raised inside a `submitGovernanceProposal` run: parsing
the values throws, the `propose` transaction is rejected or reverts, or
waiting for the receipt throws. -/
def submitGovernanceProposalRaises (inp : GovProposalInput) (env : GovEnv) : Prop :=
  (∃ e, parseEtherList (inp.values.getD ["0"]) = .error e) ∨
  (∃ e, env.proposeOutcome = .error e) ∨
  (∃ e, env.waitOutcome = .error e)

/-- An error is raised inside a `getVotingPower` run: the provider is
absent or the `balanceOf` call throws. -/
def getVotingPowerRaises (env : PowerEnv) : Prop :=
  env.hasEthereum = false ∨ (∃ e, env.balanceOutcome = .error e)

/-! ## ProposalForm: form state, handleSubmit, native form validation -/

/-- A UI status message (`setMessage` argument): text plus a kind that is
one of `success`, `error`, `info`. -/
structure Message where
  text : String
  kind : String
deriving DecidableEq

/-- The slice of ProposalForm component state that `handleSubmit` reads
and writes. -/
structure FormState where
  formData : ProposalData
  isSubmitting : Bool
  message : Option Message
  walletConnected : Bool
  signerPresent : Bool
deriving DecidableEq

/-- Everything external that one `handleSubmit` run observes: the outcome
of the optional `onSubmit` callback, the contract-call outcomes consumed
by `submitGovernanceProposal`, and the delay outcome and random suffix
consumed by the mock `submitProposal`. -/
structure SubmitEnv where
  onSubmitOutcome : Except JSErr Unit
  govEnv : GovEnv
  mockDelayOutcome : Except JSErr Unit
  mockSuffix : String
deriving DecidableEq

/-- A submission call `handleSubmit` dispatches: either the on-chain
`submitGovernanceProposal` or the mock `submitProposal`, with the data
passed to it. -/
inductive SubmitCall where
  | govSubmit (input : GovProposalInput)
  | mockSubmit (data : ProposalData)
deriving DecidableEq

/-- What one `handleSubmit` run produces: the final form data and message
state, the final `isSubmitting` flag (reset in `finally`), and the
submission calls dispatched. -/
structure SubmitOutput where
  formData : ProposalData
  message : Option Message
  isSubmitting : Bool
  calls : List SubmitCall
deriving DecidableEq

/-- Model of `handleSubmit` (ProposalForm): calls `onSubmit?.(formData)`; then, if
the wallet is connected and a signer is held, submits on-chain via
`submitGovernanceProposal`, resetting the form on success and keeping it
with an error message on failure; otherwise falls back to the mock
`submitProposal` with the same reset-on-success behaviour. A throw from
the `onSubmit` callback lands in the catch block; `isSubmitting` is
cleared in `finally`. -/
def handleSubmit (st : FormState) (env : SubmitEnv) : SubmitOutput :=
  match env.onSubmitOutcome with
  | .error e =>
      { formData := st.formData,
        message := some { text := errMessageOr e "An unexpected error occurred",
                          kind := "error" },
        isSubmitting := false, calls := [] }
  | .ok _ =>
    if st.walletConnected ∧ st.signerPresent then
      let out := submitGovernanceProposal (toGovInput st.formData) env.govEnv
      let result := out.1
      if result.success then
        { formData := initialFormData,
          message := some { text := "Proposal submitted on-chain! Transaction: " ++
                              strSlice ((result.transactionHash).getD "") 0 10 ++ "...",
                            kind := "success" },
          isSubmitting := false, calls := [.govSubmit (toGovInput st.formData)] }
      else
        { formData := st.formData,
          message := some { text := optStrOr result.error
                              "Failed to submit proposal to blockchain",
                            kind := "error" },
          isSubmitting := false, calls := [.govSubmit (toGovInput st.formData)] }
    else
      let result := submitProposal st.formData env.mockDelayOutcome env.mockSuffix
      if result.success then
        { formData := initialFormData,
          message := some { text := "Proposal submitted (mock)! Proposal ID: " ++
                              (result.proposalId).getD "undefined",
                            kind := "success" },
          isSubmitting := false, calls := [.mockSubmit st.formData] }
      else
        { formData := st.formData,
          message := some { text := strOr result.message "Failed to submit proposal",
                            kind := "error" },
          isSubmitting := false, calls := [.mockSubmit st.formData] }

/-- The `min` attribute of the voting-period number input (ProposalForm
markup). -/
def votingPeriodMin : Int := 1

/-- The `max` attribute of the voting-period number input (ProposalForm
markup). -/
def votingPeriodMax : Int := 30

/-- Browser constraint validation of the form, from the attributes
declared in the ProposalForm markup: title and description are `required`
(empty blocks submission), the voting-period number input is `required`
with `min=1` and `max=30` (a missing value — the rendering of `NaN` state —
or one outside the range blocks submission). -/
def formValidates (d : ProposalData) : Bool :=
  d.title ≠ "" && d.description ≠ "" &&
    match d.votingPeriod with
    | some n => votingPeriodMin ≤ n && n ≤ votingPeriodMax
    | none => false

/-- A user attempt to submit the form: the browser fires the form's
submit event — and so runs `handleSubmit` — only when constraint
validation of the declared `required`/`min`/`max` attributes passes;
otherwise the event never fires and the component state is untouched. -/
def attemptSubmit (st : FormState) (env : SubmitEnv) : SubmitOutput :=
  if formValidates st.formData then handleSubmit st env
  else { formData := st.formData, message := st.message,
         isSubmitting := st.isSubmitting, calls := [] }

/-! ## Claim theorems -/

/-- C2: for every input ProposalData and every random suffix, the mock
`submitProposal` (whose awaited fixed delay of 1500 ms always resolves)
returns success = true, the message "Proposal submitted successfully" and
a proposal identifier `prop_` followed by the random suffix. -/
theorem C2_mock_submit_always_succeeds (data : ProposalData) (suffix : String) :
    submitProposal data (.ok ()) suffix =
      { success := true, message := "Proposal submitted successfully",
        proposalId := some ("prop_" ++ suffix) } ∧
    mockSubmitDelayMs = 1500 :=
  ⟨rfl, rfl⟩

/-- C9: every `submitProposal` result carries the success flag plus either
a proposal identifier (present exactly when success = true) or an error
message (when success = false the message field carries the caught
exception's message and proposalId is absent; on success the message is
the fixed success text). -/
theorem C9_submission_result_shape (data : ProposalData)
    (delayOutcome : Except JSErr Unit) (suffix : String) :
    ((submitProposal data delayOutcome suffix).success = true ↔
      (submitProposal data delayOutcome suffix).proposalId.isSome) ∧
    ((submitProposal data delayOutcome suffix).success = false →
      (submitProposal data delayOutcome suffix).proposalId = none ∧
      ∃ e : JSErr, delayOutcome = .error e ∧
        (submitProposal data delayOutcome suffix).message =
          errMessageOr e "Failed to submit proposal") ∧
    ((submitProposal data delayOutcome suffix).success = true →
      (submitProposal data delayOutcome suffix).message =
        "Proposal submitted successfully") := by
  cases delayOutcome with
  | ok u => simp [submitProposal]
  | error e => simp [submitProposal]

/-- Witness for C9 at a concrete failing delay outcome. -/
theorem C9_submission_result_shape_witness :
    ((submitProposal initialFormData (Except.error (some "boom")) "ab").success = true ↔
      (submitProposal initialFormData (Except.error (some "boom")) "ab").proposalId.isSome) ∧
    ((submitProposal initialFormData (Except.error (some "boom")) "ab").success = false →
      (submitProposal initialFormData (Except.error (some "boom")) "ab").proposalId = none ∧
      ∃ e : JSErr, (Except.error (some "boom") : Except JSErr Unit) = .error e ∧
        (submitProposal initialFormData (Except.error (some "boom")) "ab").message =
          errMessageOr e "Failed to submit proposal") ∧
    ((submitProposal initialFormData (Except.error (some "boom")) "ab").success = true →
      (submitProposal initialFormData (Except.error (some "boom")) "ab").message =
        "Proposal submitted successfully") :=
  C9_submission_result_shape initialFormData (Except.error (some "boom")) "ab"

/-- All shapes a `connectWallet` result can take: either success, or
failure carrying an error string. -/
theorem connectWallet_shape (env : WalletEnv) :
    (connectWallet env).1.success = true ∨
      ((connectWallet env).1.success = false ∧ ((connectWallet env).1.error).isSome) := by
  obtain ⟨he, ao, no, sw, sg⟩ := env
  cases he <;> cases ao <;> cases no <;> cases sw <;> cases sg <;>
    simp only [connectWallet, connectCatch] <;>
    (try split_ifs) <;> simp

/-- All shapes a `submitGovernanceProposal` result can take. -/
theorem submitGovernanceProposal_shape (inp : GovProposalInput) (env : GovEnv) :
    (submitGovernanceProposal inp env).1.success = true ∨
      ((submitGovernanceProposal inp env).1.success = false ∧
        ((submitGovernanceProposal inp env).1.error).isSome) := by
  obtain ⟨po, wo⟩ := env
  unfold submitGovernanceProposal
  cases hm : parseEtherList (inp.values.getD ["0"]) with
  | error e => simp [hm, govCatch]
  | ok vs => cases po <;> cases wo <;> simp [hm, govCatch]

/-- All shapes a `getVotingPower` result can take. -/
theorem getVotingPower_shape (env : PowerEnv) :
    (getVotingPower env).success = true ∨
      ((getVotingPower env).success = false ∧ ((getVotingPower env).error).isSome) := by
  obtain ⟨he, bo⟩ := env
  cases he <;> cases bo <;> simp [getVotingPower]

/-- A `connectWallet` run fails exactly when an error is raised inside
it. -/
theorem connectWallet_fails_iff_raises (env : WalletEnv) :
    (connectWallet env).1.success = false ↔ connectWalletRaises env := by
  obtain ⟨he, ao, no, sw, sg⟩ := env
  cases he <;> cases ao <;> cases no <;> cases sw <;> cases sg <;>
    simp only [connectWallet, connectCatch, connectWalletRaises] <;>
    (try split_ifs) <;> simp_all

/-- A `submitGovernanceProposal` run fails exactly when an error is
raised inside it. -/
theorem submitGovernanceProposal_fails_iff_raises (inp : GovProposalInput)
    (env : GovEnv) :
    (submitGovernanceProposal inp env).1.success = false ↔
      submitGovernanceProposalRaises inp env := by
  obtain ⟨po, wo⟩ := env
  unfold submitGovernanceProposal submitGovernanceProposalRaises
  cases hm : parseEtherList (inp.values.getD ["0"]) with
  | error e => simp [hm, govCatch]
  | ok vs => cases po <;> cases wo <;> simp [hm, govCatch]

/-- A `getVotingPower` run fails exactly when an error is raised inside
it. -/
theorem getVotingPower_fails_iff_raises (env : PowerEnv) :
    (getVotingPower env).success = false ↔ getVotingPowerRaises env := by
  obtain ⟨he, bo⟩ := env
  cases he <;> cases bo <;> simp [getVotingPower, getVotingPowerRaises]

/-- C3: `connectWallet`, `submitGovernanceProposal` and `getVotingPower`
are total on every environment of external outcomes — each run returns a
plain result object rather than propagating an exception. Every error
raised inside a run (wallet absent, wrong-network switch failure,
rejected transaction, contract revert, any other thrown step) makes that
run return success = false — and conversely a run only fails when such an
error was raised — and every failing result carries a message string in
the error field. -/
theorem C3_no_exception_propagation (wenv : WalletEnv) (inp : GovProposalInput)
    (genv : GovEnv) (penv : PowerEnv) :
    ((connectWallet wenv).1.success = false ↔ connectWalletRaises wenv) ∧
    ((connectWallet wenv).1.success = false →
      ∃ s : String, (connectWallet wenv).1.error = some s) ∧
    ((submitGovernanceProposal inp genv).1.success = false ↔
      submitGovernanceProposalRaises inp genv) ∧
    ((submitGovernanceProposal inp genv).1.success = false →
      ∃ s : String, (submitGovernanceProposal inp genv).1.error = some s) ∧
    ((getVotingPower penv).success = false ↔ getVotingPowerRaises penv) ∧
    ((getVotingPower penv).success = false →
      ∃ s : String, (getVotingPower penv).error = some s) := by
  refine ⟨connectWallet_fails_iff_raises wenv, fun hf => ?_,
    submitGovernanceProposal_fails_iff_raises inp genv, fun hf => ?_,
    getVotingPower_fails_iff_raises penv, fun hf => ?_⟩
  · rcases connectWallet_shape wenv with h | ⟨_, h2⟩
    · rw [h] at hf; cases hf
    · exact Option.isSome_iff_exists.mp h2
  · rcases submitGovernanceProposal_shape inp genv with h | ⟨_, h2⟩
    · rw [h] at hf; cases hf
    · exact Option.isSome_iff_exists.mp h2
  · rcases getVotingPower_shape penv with h | ⟨_, h2⟩
    · rw [h] at hf; cases hf
    · exact Option.isSome_iff_exists.mp h2

/-- C8: with no wallet provider present, `connectWallet` returns
success = false with the error "MetaMask not installed" and issues no
wallet request at all (in particular no account-access request). -/
theorem C8_no_provider_clear_error (env : WalletEnv)
    (h : env.hasEthereum = false) :
    connectWallet env =
      ({ success := false, address := none, error := some "MetaMask not installed" }, []) := by
  simp [connectWallet, h]

/-- Witness environment for C8: no provider. -/
def noProviderEnv : WalletEnv :=
  { hasEthereum := false, accountsOutcome := .ok (), networkOutcome := .ok 1,
    switchOutcome := .ok (), signerOutcome := .ok "0xabc" }

/-- Witness for C8. -/
theorem C8_no_provider_clear_error_witness :
    connectWallet noProviderEnv =
      ({ success := false, address := none, error := some "MetaMask not installed" }, []) :=
  C8_no_provider_clear_error noProviderEnv rfl

/-- C7: with a provider present and account access granted, if the
reported chain id differs from the fixed Sepolia chain id (11155111,
NETWORK.chainId) then `connectWallet` requests a chain switch, and when
that switch fails with code 4902 the run returns success = false with the
error telling the user to add the Sepolia Testnet network. -/
theorem C7_network_check_and_switch (env : WalletEnv) (cid : Nat) (se : SwitchErr)
    (hE : env.hasEthereum = true)
    (hAcc : env.accountsOutcome = .ok ())
    (hNet : env.networkOutcome = .ok cid)
    (hMismatch : cid ≠ NETWORK_chainId)
    (hSw : env.switchOutcome = .error se)
    (hCode : se.code = some 4902) :
    NETWORK_chainId = 11155111 ∧
    WalletRequest.switchChain ("0x" ++ natToHex NETWORK_chainId) ∈ (connectWallet env).2 ∧
    (connectWallet env).1 =
      { success := false, address := none,
        error := some "Please add the Sepolia Testnet network to your wallet" } := by
  refine ⟨rfl, ?_, ?_⟩ <;>
    simp [connectWallet, hE, hAcc, hNet, hMismatch, hSw, hCode, connectCatch,
      errMessageOr, NETWORK_name]

/-- Witness environment for C7: wrong chain (mainnet, id 1) and a switch
failure with code 4902. -/
def wrongChainEnv : WalletEnv :=
  { hasEthereum := true, accountsOutcome := .ok (), networkOutcome := .ok 1,
    switchOutcome := .error { code := some 4902, asError := none },
    signerOutcome := .ok "0xabc" }

/-- Witness for C7. -/
theorem C7_network_check_and_switch_witness :
    NETWORK_chainId = 11155111 ∧
    WalletRequest.switchChain ("0x" ++ natToHex NETWORK_chainId) ∈ (connectWallet wrongChainEnv).2 ∧
    (connectWallet wrongChainEnv).1 =
      { success := false, address := none,
        error := some "Please add the Sepolia Testnet network to your wallet" } :=
  C7_network_check_and_switch wrongChainEnv 1 { code := some 4902, asError := none }
    rfl rfl rfl (by decide) rfl rfl

/-- C6: when the caller supplies no targets, values or calldatas,
`submitGovernanceProposal` issues exactly one `propose` call, at the fixed
Governor contract address, with the timelock address as single target, a
single 0-wei value (parseEther of the default entry), a single
empty-bytes calldata entry, and a description built from the title,
description, proposalType and votingPeriod of the input. -/
theorem C6_default_propose_call (inp : GovProposalInput) (env : GovEnv)
    (hT : inp.targets = none) (hV : inp.values = none) (hC : inp.calldatas = none) :
    (submitGovernanceProposal inp env).2 =
      [{ contractAddress := GOVERNOR_CONTRACT_ADDRESS,
         targets := [TIMELOCK_CONTRACT_ADDRESS],
         values := [0],
         calldatas := ["0x"],
         description := "# " ++ inp.title ++ "\n\n" ++ inp.description ++
           "\n\nType: " ++ inp.proposalType ++
           "\nVoting Period: " ++ numToStr inp.votingPeriod ++ " days" }] := by
  have h0 : parseEtherList ["0"] = .ok [0] := by decide
  obtain ⟨po, wo⟩ := env
  unfold submitGovernanceProposal
  rw [hT, hV, hC]
  simp only [Option.getD_none]
  rw [h0]
  cases po <;> cases wo <;> simp

/-- Witness input for C6: the form data of a filled form, no explicit
targets, values or calldatas. -/
def sampleGovInput : GovProposalInput :=
  toGovInput { title := "T", description := "D", votingPeriod := some 7,
               proposalType := "general" }

/-- Witness environment for C6: propose and wait both resolve. -/
def okGovEnv : GovEnv :=
  { proposeOutcome := .ok "0xtxhash", waitOutcome := .ok "0xreceipthash" }

/-- Witness for C6. -/
theorem C6_default_propose_call_witness :
    (submitGovernanceProposal sampleGovInput okGovEnv).2 =
      [{ contractAddress := GOVERNOR_CONTRACT_ADDRESS,
         targets := [TIMELOCK_CONTRACT_ADDRESS],
         values := [0],
         calldatas := ["0x"],
         description := "# " ++ sampleGovInput.title ++ "\n\n" ++ sampleGovInput.description ++
           "\n\nType: " ++ sampleGovInput.proposalType ++
           "\nVoting Period: " ++ numToStr sampleGovInput.votingPeriod ++ " days" }] :=
  C6_default_propose_call sampleGovInput okGovEnv rfl rfl rfl

/-- C4: when the wallet is connected, a signer is held, the external
onSubmit callback returns normally and the on-chain submission reports
success, `handleSubmit` resets the form data to its initial values:
empty title, empty description, votingPeriod 7, proposalType general. -/
theorem C4_onchain_success_resets_form (st : FormState) (env : SubmitEnv)
    (hW : st.walletConnected = true) (hS : st.signerPresent = true)
    (hCb : env.onSubmitOutcome = .ok ())
    (hOk : (submitGovernanceProposal (toGovInput st.formData) env.govEnv).1.success = true) :
    (handleSubmit st env).formData = initialFormData ∧
    initialFormData =
      { title := "", description := "", votingPeriod := some 7,
        proposalType := "general" } := by
  refine ⟨?_, rfl⟩
  unfold handleSubmit
  rw [hCb]
  simp [hW, hS, hOk]

/-- Witness state for C4 and C10: a filled form. -/
def filledFormState : FormState :=
  { formData := { title := "T", description := "D", votingPeriod := some 7,
                  proposalType := "general" },
    isSubmitting := false, message := none,
    walletConnected := true, signerPresent := true }

/-- Witness environment for C4: callback ok, on-chain submission succeeds. -/
def okSubmitEnv : SubmitEnv :=
  { onSubmitOutcome := .ok (), govEnv := okGovEnv,
    mockDelayOutcome := .ok (), mockSuffix := "abc123" }

/-- Witness for C4. -/
theorem C4_onchain_success_resets_form_witness :
    (handleSubmit filledFormState okSubmitEnv).formData = initialFormData ∧
    initialFormData =
      { title := "", description := "", votingPeriod := some 7,
        proposalType := "general" } :=
  C4_onchain_success_resets_form filledFormState okSubmitEnv rfl rfl rfl (by decide)

/-- C10: every failing submission attempt — the onSubmit callback threw,
or the taken path's result (on-chain when the wallet is connected with a
signer, mock otherwise) has success = false — leaves the form data
exactly as it was when the submission started and shows an error
message. -/
theorem C10_failure_preserves_form (st : FormState) (env : SubmitEnv)
    (hFail :
      (∃ e : JSErr, env.onSubmitOutcome = .error e) ∨
      ((st.walletConnected = true ∧ st.signerPresent = true) ∧
        (submitGovernanceProposal (toGovInput st.formData) env.govEnv).1.success = false) ∨
      (¬(st.walletConnected = true ∧ st.signerPresent = true) ∧
        (submitProposal st.formData env.mockDelayOutcome env.mockSuffix).success = false)) :
    (handleSubmit st env).formData = st.formData ∧
    (handleSubmit st env).message.map Message.kind = some "error" := by
  rcases hFail with ⟨e, he⟩ | ⟨⟨hW, hS⟩, hG⟩ | ⟨hNW, hM⟩
  · unfold handleSubmit
    rw [he]
    simp
  · unfold handleSubmit
    cases hCb : env.onSubmitOutcome with
    | error e => simp
    | ok u => simp [hW, hS, hG]
  · unfold handleSubmit
    cases hCb : env.onSubmitOutcome with
    | error e => simp
    | ok u => simp [hNW, hM]

/-- Witness environment for C10: wallet disconnected, the mock path's
awaited step throws. -/
def failMockEnv : SubmitEnv :=
  { onSubmitOutcome := .ok (),
    govEnv := okGovEnv,
    mockDelayOutcome := .error (some "network down"), mockSuffix := "zz" }

/-- Witness state for C10: filled form, wallet not connected. -/
def disconnectedFormState : FormState :=
  { formData := { title := "T", description := "D", votingPeriod := some 7,
                  proposalType := "general" },
    isSubmitting := false, message := none,
    walletConnected := false, signerPresent := false }

/-- Witness for C10. -/
theorem C10_failure_preserves_form_witness :
    (handleSubmit disconnectedFormState failMockEnv).formData =
      disconnectedFormState.formData ∧
    (handleSubmit disconnectedFormState failMockEnv).message.map Message.kind =
      some "error" :=
  C10_failure_preserves_form disconnectedFormState failMockEnv
    (Or.inr (Or.inr (by decide)))

/-- C5: a form-submission attempt with an empty title or an empty
description is rejected by the `required` attributes on those inputs
(native constraint validation): `handleSubmit` never runs, so neither
`submitGovernanceProposal` nor the mock `submitProposal` is dispatched,
and the form state is untouched. -/
theorem C5_empty_required_fields_reject (st : FormState) (env : SubmitEnv)
    (h : st.formData.title = "" ∨ st.formData.description = "") :
    (attemptSubmit st env).calls = [] ∧
    (attemptSubmit st env).formData = st.formData := by
  have hv : formValidates st.formData = false := by
    rcases h with h | h <;> simp [formValidates, h]
  simp [attemptSubmit, hv]

/-- Witness state for C5: empty title. -/
def emptyTitleFormState : FormState :=
  { formData := { title := "", description := "D", votingPeriod := some 7,
                  proposalType := "general" },
    isSubmitting := false, message := none,
    walletConnected := false, signerPresent := false }

/-- Witness for C5. -/
theorem C5_empty_required_fields_reject_witness :
    (attemptSubmit emptyTitleFormState okSubmitEnv).calls = [] ∧
    (attemptSubmit emptyTitleFormState okSubmitEnv).formData =
      emptyTitleFormState.formData :=
  C5_empty_required_fields_reject emptyTitleFormState okSubmitEnv (Or.inl rfl)

/-- C1 counterexample: the change event with name votingPeriod and value
"50" is handled by storing 50, which lies outside the range 1 to 30 — no
clamping is applied by `handleChange`. -/
theorem C1_counterexample :
    (handleChange "votingPeriod" "50" initialFormData).votingPeriod = some 50 ∧
    ¬((1 : Int) ≤ 50 ∧ (50 : Int) ≤ 30) := by
  decide

/-- C1 (amended): `handleChange` stores `parseInt(value)` for
votingPeriod without clamping, so after a change event the field may hold
any parsed integer (or NaN); the range bound exists only as the input's
min = 1 and max = 30 attributes, which native form validation enforces at
submission time: any attempt that actually dispatches a submission has
votingPeriod an integer between 1 and 30. -/
theorem C1_votingPeriod_parse_and_submit_range (v : String) (prev : ProposalData)
    (st : FormState) (env : SubmitEnv)
    (hCalls : (attemptSubmit st env).calls ≠ []) :
    (handleChange "votingPeriod" v prev).votingPeriod = parseIntJS v ∧
    votingPeriodMin = 1 ∧ votingPeriodMax = 30 ∧
    ∃ n : Int, st.formData.votingPeriod = some n ∧
      votingPeriodMin ≤ n ∧ n ≤ votingPeriodMax := by
  refine ⟨by simp [handleChange], rfl, rfl, ?_⟩
  have hv : formValidates st.formData = true := by
    by_contra hvf
    rw [Bool.not_eq_true] at hvf
    exact hCalls (by simp [attemptSubmit, hvf])
  revert hv
  unfold formValidates
  cases hnum : st.formData.votingPeriod with
  | none => simp
  | some n =>
    intro hv
    simp only [Bool.and_eq_true, decide_eq_true_eq] at hv
    exact ⟨n, rfl, hv.2.1, hv.2.2⟩

/-- Witness for C1 (amended): a filled, valid form whose submission
dispatches the mock call. -/
theorem C1_votingPeriod_parse_and_submit_range_witness :
    (handleChange "votingPeriod" "50" initialFormData).votingPeriod = parseIntJS "50" ∧
    votingPeriodMin = 1 ∧ votingPeriodMax = 30 ∧
    ∃ n : Int, disconnectedFormState.formData.votingPeriod = some n ∧
      votingPeriodMin ≤ n ∧ n ≤ votingPeriodMax :=
  C1_votingPeriod_parse_and_submit_range "50" initialFormData
    disconnectedFormState okSubmitEnv (by decide)
